import Mathlib

/-!
Verification of the `microchip-eeprom-25x` SPI EEPROM driver.

The Rust sources are shallowly embedded: machine integers become `Nat`
(with explicit `% 2 ^ w` where overflow matters), the `bit_field` crate's
`get_bit` / `get_bits` / `set_bit` / `set_bits` become arithmetic on `Nat`
(`set_bits` returns `Option Nat`, `none` modelling the crate's
"value does not fit in given bit range" panic), and the driver's
side-effecting methods become pure functions that return the list of bus
events they emit together with an outcome (success, a driver error, or a
panic).  Device responses (status byte, manufacturer id, number of busy
polls) are supplied by an explicit environment record.
-/

namespace E25x

/-! ## Bit-field primitives (semantics of the `bit_field` crate)

Rust ranges are half-open: `get_bits(lo..hi)` reads bits `lo, …, hi-1`.
`set_bits` panics when the value does not fit in `hi - lo` bits; the panic
is modelled as `none`. -/

/-- Semantics of `bit_field::BitField::get_bit`. -/
def getBit (x i : Nat) : Bool :=
  Nat.testBit x i

/-- Semantics of `bit_field::BitField::get_bits(lo..hi)`. -/
def getBits (x lo hi : Nat) : Nat :=
  x / 2 ^ lo % 2 ^ (hi - lo)

/-- Semantics of `bit_field::BitField::set_bits(lo..hi, v)`; `none` models
the panic raised when `v` does not fit in `hi - lo` bits. -/
def setBits (x lo hi v : Nat) : Option Nat :=
  if v < 2 ^ (hi - lo) then
    some (x % 2 ^ lo + v * 2 ^ lo + x / 2 ^ hi * 2 ^ hi)
  else
    none

/-- Semantics of `bit_field::BitField::set_bit(i, b)`. -/
def setBit (x i : Nat) (b : Bool) : Nat :=
  x % 2 ^ i + (if b then 2 ^ i else 0) + x / 2 ^ (i + 1) * 2 ^ (i + 1)

/-! ## `src/register.rs` -/

/-- Opcode `Instruction::Read = 0b0000_0011`. -/
def opRead : Nat := 0x03

/-- Opcode `Instruction::Write = 0b0000_0010`. -/
def opWrite : Nat := 0x02

/-- Opcode `Instruction::WriteEnable = 0b0000_0110`. -/
def opWriteEnable : Nat := 0x06

/-- Opcode `Instruction::WriteDisable = 0b0000_0100`. -/
def opWriteDisable : Nat := 0x04

/-- Opcode `Instruction::ReadStatus = 0b0000_01010` (nine binary digits in
the source, value 10). -/
def opReadStatus : Nat := 10

/-- Opcode `Instruction::WriteStatus = 0b0000_01000` (value 8). -/
def opWriteStatus : Nat := 8

/-- Opcode `Instruction::PageErase = 0b0100_0010`. -/
def opPageErase : Nat := 0x42

/-- Opcode `Instruction::SectorErase = 0b1101_1000`. -/
def opSectorErase : Nat := 0xD8

/-- Opcode `Instruction::ChipErase = 0b1100_0111`. -/
def opChipErase : Nat := 0xC7

/-- Opcode `Instruction::ReleasePowerDown = 0b1010_1011`. -/
def opReleasePowerDown : Nat := 0xAB

/-- Opcode `Instruction::DeepSleepPowerMode = 0b1011_1001`. -/
def opDeepSleepPowerMode : Nat := 0xB9

/-- The `Erase` enum of `src/register.rs`. -/
inductive Erase where
  | pageErase
  | sectorErase
  | chipErase
  deriving DecidableEq, Repr

/-- Discriminant of the `Erase` enum (`erase as u32`). -/
def Erase.toNat : Erase → Nat
  | .pageErase => opPageErase
  | .sectorErase => opSectorErase
  | .chipErase => opChipErase

/-! ## `src/status.rs` -/

/-- The `WriteProtection` enum. -/
inductive WriteProtection where
  | none
  | quarter
  | half
  | all
  deriving DecidableEq, Repr

/-- Discriminant of the `WriteProtection` enum (`protection as u8`). -/
def WriteProtection.toNat : WriteProtection → Nat
  | .none => 0b00
  | .quarter => 0b01
  | .half => 0b10
  | .all => 0b11

/-- The `Status` struct: a raw status byte. -/
structure Status where
  value : Nat
  deriving DecidableEq, Repr

/-- Method `Status::write_latch_enabled`: `self.value.get_bit(1)`. -/
def Status.write_latch_enabled (s : Status) : Bool :=
  getBit s.value 1

/-- Method `Status::write_in_progress`: `self.value.get_bit(0)`. -/
def Status.write_in_progress (s : Status) : Bool :=
  getBit s.value 0

/-- Method `Status::write_protection_level`: reads `get_bits(2..3)` (a
one-bit range) and decodes it, with the source's (unreachable for values
2 and 3) match arms reproduced verbatim. -/
def Status.write_protection_level (s : Status) : WriteProtection :=
  match getBits s.value 2 3 with
  | 0b00 => WriteProtection.none
  | 0b01 => WriteProtection.quarter
  | 0b10 => WriteProtection.half
  | 0b11 => WriteProtection.all
  | _ => WriteProtection.none

/-- Method `Status::set_write_protection_level`:
`self.value.set_bits(2..3, protection as u8)`.  The range `2..3` is one
bit wide, so `bit_field` panics (`none`) when the discriminant needs two
bits. -/
def Status.set_write_protection_level (s : Status) (protection : WriteProtection) :
    Option Status :=
  (setBits s.value 2 3 protection.toNat).map Status.mk

/-- Method `Status::write_protection_enabled`: `self.value.get_bit(7)`. -/
def Status.write_protection_enabled (s : Status) : Bool :=
  getBit s.value 7

/-- Method `Status::set_write_protection_enabled`:
`self.value.set_bit(7, enabled)`. -/
def Status.set_write_protection_enabled (s : Status) (enabled : Bool) : Status :=
  ⟨setBit s.value 7 enabled⟩

/-! ## Command encoders (`src/eeprom25x.rs` lines 211–223, identical in
`src/lib.rs`).  `set_bits(24..31, op)` writes the 7-bit range 24..30;
the opcodes 3 and 2 always fit, so the encoders never panic, but the
`Option` from `setBits` is kept to mirror the possibly-panicking call. -/

/-- Function `e25x_read_from_address_command`. -/
def e25x_read_from_address_command (address : Nat) : Option Nat :=
  setBits address 24 31 opRead

/-- Function `e25x_write_from_address_command`. -/
def e25x_write_from_address_command (address : Nat) : Option Nat :=
  setBits address 24 31 opWrite

end E25x

namespace E25x

/-! ## Claims about the status register and the command encoders -/

/-- C2 (failing input): `set_write_protection_level` on status byte `0x00`
panics for levels `Half` and `All`: the one-bit range `2..3` cannot hold
the two-bit discriminants `0b10` and `0b11`, so `bit_field`'s assertion
fires instead of the claimed round-trip returning the level that was set. -/
theorem set_write_protection_level_half_all_panic :
    Status.set_write_protection_level ⟨0⟩ WriteProtection.half = none ∧
    Status.set_write_protection_level ⟨0⟩ WriteProtection.all = none := by
  decide

/-- C7: for every 24-bit address `a`, the encoded Read and Write command
words have low 24 bits equal to `a` and top byte equal to the Read and
Write opcode respectively, so they differ only in the top byte. -/
theorem read_write_commands_differ_only_in_top_byte (a : Nat) (h : a < 2 ^ 24) :
    e25x_read_from_address_command a = some (opRead * 2 ^ 24 + a) ∧
    e25x_write_from_address_command a = some (opWrite * 2 ^ 24 + a) ∧
    (opRead * 2 ^ 24 + a) % 2 ^ 24 = a ∧
    (opWrite * 2 ^ 24 + a) % 2 ^ 24 = a ∧
    (opRead * 2 ^ 24 + a) / 2 ^ 24 = opRead ∧
    (opWrite * 2 ^ 24 + a) / 2 ^ 24 = opWrite := by
  have h31 : a / 2 ^ 31 = 0 := Nat.div_eq_of_lt (lt_trans h (by norm_num))
  have hm : a % 2 ^ 24 = a := Nat.mod_eq_of_lt h
  refine ⟨?_, ?_, ?_, ?_, ?_, ?_⟩ <;>
    simp [e25x_read_from_address_command, e25x_write_from_address_command,
      setBits, opRead, opWrite, h31, hm] <;>
    omega

/-- Witness for C7 at the concrete address `0x123456`. -/
theorem read_write_commands_differ_only_in_top_byte_witness :
    e25x_read_from_address_command 0x123456 = some (opRead * 2 ^ 24 + 0x123456) ∧
    e25x_write_from_address_command 0x123456 = some (opWrite * 2 ^ 24 + 0x123456) ∧
    (opRead * 2 ^ 24 + 0x123456) % 2 ^ 24 = 0x123456 ∧
    (opWrite * 2 ^ 24 + 0x123456) % 2 ^ 24 = 0x123456 ∧
    (opRead * 2 ^ 24 + 0x123456) / 2 ^ 24 = opRead ∧
    (opWrite * 2 ^ 24 + 0x123456) / 2 ^ 24 = opWrite :=
  read_write_commands_differ_only_in_top_byte 0x123456 (by norm_num)

set_option maxRecDepth 4096 in
/-- C9: for every status byte `b`, reading the four fields and writing the
writable field values back into a register holding `b` reproduces `b`
exactly (the decode/re-encode round-trip is the identity). -/
theorem status_decode_reencode_roundtrip (b : Nat) (h : b < 256) :
    (Status.set_write_protection_level ⟨b⟩ (Status.write_protection_level ⟨b⟩)).map
        (fun s => Status.set_write_protection_enabled s
          (Status.write_protection_enabled ⟨b⟩)) = some ⟨b⟩ :=
  (by decide :
    ∀ m, m < 256 →
      (Status.set_write_protection_level ⟨m⟩ (Status.write_protection_level ⟨m⟩)).map
          (fun s => Status.set_write_protection_enabled s
            (Status.write_protection_enabled ⟨m⟩)) = some ⟨m⟩) b h

/-- Witness for C9 at the concrete status byte `0xAB`. -/
theorem status_decode_reencode_roundtrip_witness :
    (Status.set_write_protection_level ⟨0xAB⟩ (Status.write_protection_level ⟨0xAB⟩)).map
        (fun s => Status.set_write_protection_enabled s
          (Status.write_protection_enabled ⟨0xAB⟩)) = some ⟨0xAB⟩ :=
  status_decode_reencode_roundtrip 0xAB (by norm_num)

end E25x

namespace E25x

/-! ## Bus events and device environment

Each driver method is embedded as a pure function returning the list of
pin/SPI events it emits and an outcome.  `Env` supplies the device's
responses: the status byte returned by status reads and the manufacturer
id byte returned by `release_from_deep_sleep_and_get_manufacturer_id`. -/

/-- The three output pins owned by the driver. -/
inductive Pin where
  | cs
  | wp
  | hold
  deriving DecidableEq, Repr

/-- Observable bus events: pin level changes, full-duplex SPI transfers
(`spi.transfer`, carrying the bytes clocked out) and half-duplex SPI sends
(`spi.write`). -/
inductive Ev where
  | pinHigh : Pin → Ev
  | pinLow : Pin → Ev
  | spiTransfer : List Nat → Ev
  | spiWrite : List Nat → Ev
  deriving DecidableEq, Repr

/-- Device responses supplied to the model: the status byte answered to
status reads, the manufacturer id byte, and how many times the device
reports busy before clearing during a busy-wait. -/
structure Env where
  statusByte : Nat
  mfgId : Nat
  busyPolls : Nat
  deriving DecidableEq, Repr

/-- The `Error` enum of `src/eeprom25x.rs`, with the wrapped SPI/pin error
payloads modelled as `Nat`. -/
inductive DriverError where
  | spiError : Nat → DriverError
  | pinError : Nat → DriverError
  | busyWriting
  | wrongId
  | tooMuchData
  deriving DecidableEq, Repr

/-- Outcome of a driver call: success, a returned `Error`, or a Rust
panic (from `bit_field`'s range assertion). -/
inductive POutcome (α : Type) where
  | ok : α → POutcome α
  | err : DriverError → POutcome α
  | panicked
  deriving DecidableEq, Repr

/-- Compile-time feature flags selecting the device variant. -/
structure DeviceCfg where
  f25lc512 : Bool
  f25lc1024 : Bool
  deriving DecidableEq, Repr

/-- Variants with the `25lc512` or `25lc1024` feature have deep-sleep
support (`deep_sleep` exists and is called by `new`/`read`/`write`). -/
def DeviceCfg.sleep (c : DeviceCfg) : Bool :=
  c.f25lc512 || c.f25lc1024

/-- Big-endian byte decomposition `u32::to_be_bytes`. -/
def toBeBytes4 (x : Nat) : List Nat :=
  [x / 2 ^ 24 % 256, x / 2 ^ 16 % 256, x / 2 ^ 8 % 256, x % 256]

/-- Events of the private `transfer` method on the success path: assert
chip-select, full-duplex transfer, deassert chip-select. -/
def transferEvs (bytes : List Nat) : List Ev :=
  [Ev.pinLow Pin.cs, Ev.spiTransfer bytes, Ev.pinHigh Pin.cs]

/-- Events of `write_enable`. -/
def writeEnableEvs : List Ev :=
  transferEvs [opWriteEnable]

/-- Events of `write_disable`. -/
def writeDisableEvs : List Ev :=
  transferEvs [opWriteDisable]

/-- Events of one status read (`status` and `status_read` send the same
frame `[ReadStatus, 0]`). -/
def statusReadTxEvs : List Ev :=
  transferEvs [opReadStatus, 0]

/-- Events of `deep_sleep`. -/
def deepSleepEvs : List Ev :=
  transferEvs [opDeepSleepPowerMode]

/-- Events of `hold_transfer(enabled)`. -/
def holdTransferEvs (enabled : Bool) : List Ev :=
  if enabled then [Ev.pinHigh Pin.hold] else [Ev.pinLow Pin.hold]

/-- Events of `release_from_deep_sleep_and_get_manufacturer_id`: a 5-byte
frame under the `25lc1024` feature, a 4-byte frame otherwise. -/
def releaseFromDeepSleepEvs (cfg : DeviceCfg) : List Ev :=
  if cfg.f25lc1024 then
    transferEvs [opReleasePowerDown, 0, 0, 0, 0]
  else
    transferEvs [opReleasePowerDown, 0, 0, 0]

/-- Method `status`: one `[ReadStatus, 0]` transfer; the device answers
with the status byte in the second position. -/
def statusTx (env : Env) : List Ev × Status :=
  (statusReadTxEvs, ⟨env.statusByte⟩)

/-- Method `error_on_writing`: read status; return `BusyWriting` when the
write-in-progress bit is set. -/
def error_on_writing (env : Env) : List Ev × POutcome Status :=
  let (evs, st) := statusTx env
  if st.write_in_progress then (evs, POutcome.err DriverError.busyWriting)
  else (evs, POutcome.ok st)

/-- Method `erase`: check busy, issue WriteEnable, overwrite the address's
bit range `24..31` with the erase opcode (panicking when the opcode does
not fit in 7 bits), and send the 4 big-endian bytes. -/
def erase (env : Env) (address : Nat) (e : Erase) : List Ev × POutcome Unit :=
  match error_on_writing env with
  | (evs1, POutcome.ok _) =>
    match setBits address 24 31 e.toNat with
    | some a => (evs1 ++ writeEnableEvs ++ transferEvs (toBeBytes4 a), POutcome.ok ())
    | none => (evs1 ++ writeEnableEvs, POutcome.panicked)
  | (evs1, POutcome.err er) => (evs1, POutcome.err er)
  | (evs1, POutcome.panicked) => (evs1, POutcome.panicked)

/-- Constructor `Eeprom25x::new` of `src/eeprom25x.rs`: raise chip-select,
hold and write-protect, wake the device reading the manufacturer id, fail
with `WrongId` unless it equals `0x29`; on success (the status-protection
dance being commented out in this variant) enter deep sleep when the
variant supports it and release the hold. -/
def new (cfg : DeviceCfg) (env : Env) : List Ev × POutcome Unit :=
  let pre := [Ev.pinHigh Pin.cs, Ev.pinHigh Pin.hold, Ev.pinHigh Pin.wp]
  if env.mfgId ≠ 0x29 then
    (pre ++ releaseFromDeepSleepEvs cfg, POutcome.err DriverError.wrongId)
  else
    (pre ++ releaseFromDeepSleepEvs cfg
      ++ (if cfg.sleep then deepSleepEvs else []) ++ holdTransferEvs false,
     POutcome.ok ())

/-- State of the chip-select line (`true` = high = deasserted). -/
structure Pins where
  cs : Bool
  deriving DecidableEq, Repr

/-- The private `transfer` method with an injectable SPI outcome
(`spiFail = some e` makes `spi.transfer` fail with transport error `e`):
set chip-select low, run the transfer — returning the wrapped error
immediately on failure — and set chip-select high only on success. -/
def transferPrim (spiFail : Option Nat) (bytes : List Nat) (p : Pins) :
    POutcome Unit × Pins :=
  let p1 : Pins := { p with cs := false }
  match spiFail with
  | some e => (POutcome.err (DriverError.spiError e), p1)
  | none =>
    let p2 : Pins := { p1 with cs := true }
    (POutcome.ok (), p2)

end E25x

namespace E25x

/-! ## Claims about the device driver -/

/-- C3 (failing input): with an idle device, `erase` at address 0 panics
for Sector and Chip granularity — their opcodes `0xD8` and `0xC7` do not
fit the 7-bit range `24..31` that `set_bits` writes — while Page
granularity (opcode `0x42`) sends the claimed frame `[0x42, 0, 0, 0]`
after the status read and WriteEnable. -/
theorem erase_sector_chip_panic :
    erase ⟨0, 0x29, 0⟩ 0 Erase.sectorErase
      = (statusReadTxEvs ++ writeEnableEvs, POutcome.panicked) ∧
    erase ⟨0, 0x29, 0⟩ 0 Erase.chipErase
      = (statusReadTxEvs ++ writeEnableEvs, POutcome.panicked) ∧
    erase ⟨0, 0x29, 0⟩ 0 Erase.pageErase
      = (statusReadTxEvs ++ writeEnableEvs ++ transferEvs [0x42, 0, 0, 0],
         POutcome.ok ()) := by
  decide

/-- C6: whenever the status byte read at the start of `erase` has the busy
bit set, `erase` returns `BusyWriting` and the only transaction performed
is the status read — no WriteEnable and no erase frame. -/
theorem erase_busy_returns_busy_after_status_read_only
    (env : Env) (address : Nat) (e : Erase)
    (h : getBit env.statusByte 0 = true) :
    erase env address e = (statusReadTxEvs, POutcome.err DriverError.busyWriting) := by
  simp [erase, error_on_writing, statusTx, Status.write_in_progress, h]

/-- Witness for C6: status byte 1 (busy bit set), address 5, page erase. -/
theorem erase_busy_returns_busy_after_status_read_only_witness :
    erase ⟨1, 0x29, 0⟩ 5 Erase.pageErase
      = (statusReadTxEvs, POutcome.err DriverError.busyWriting) :=
  erase_busy_returns_busy_after_status_read_only ⟨1, 0x29, 0⟩ 5 Erase.pageErase (by decide)

/-- C8: when the identity byte differs from the manufacturer code `0x29`,
`new` returns `WrongId` and its whole event trace is the three pin raises
followed by the identity transaction — in particular no status-protection
(WriteStatus) transaction occurs before returning. -/
theorem new_wrong_identity_no_further_transactions (cfg : DeviceCfg) (env : Env)
    (h : env.mfgId ≠ 0x29) :
    new cfg env
      = ([Ev.pinHigh Pin.cs, Ev.pinHigh Pin.hold, Ev.pinHigh Pin.wp]
          ++ releaseFromDeepSleepEvs cfg,
         POutcome.err DriverError.wrongId) := by
  simp [new, h]

/-- Witness for C8: identity byte 0 on the plain variant. -/
theorem new_wrong_identity_no_further_transactions_witness :
    new ⟨false, false⟩ ⟨0, 0, 0⟩
      = ([Ev.pinHigh Pin.cs, Ev.pinHigh Pin.hold, Ev.pinHigh Pin.wp]
          ++ releaseFromDeepSleepEvs ⟨false, false⟩,
         POutcome.err DriverError.wrongId) :=
  new_wrong_identity_no_further_transactions ⟨false, false⟩ ⟨0, 0, 0⟩ (by decide)

/-- C10: when the duplex transfer inside the framed-transaction primitive
fails, the primitive returns the wrapped transport error and chip-select
is left asserted (low): the deassert step runs only on the success path. -/
theorem transfer_spi_failure_leaves_cs_asserted (e : Nat) (bytes : List Nat) (p : Pins) :
    transferPrim (some e) bytes p
      = (POutcome.err (DriverError.spiError e), ⟨false⟩) :=
  rfl

end E25x

namespace E25x

/-! ## `src/storage.rs`

`CAPACITY` and `PAGE_SIZE` are compile-time feature selections; they are
modelled as fields of a configuration record.  The busy-wait loop
`while status_read()?.get_bit(0) {}` is modelled by the environment
stating how many polls report busy before the bit clears
(`Env.busyPolls`), so each wait emits that many busy status reads plus
the final clear one. -/

/-- Configuration of the storage layer: the feature-selected capacity and
page size together with the device variant flags. -/
structure StorageCfg where
  capacity : Nat
  pageSize : Nat
  dev : DeviceCfg
  deriving DecidableEq, Repr

/-- Method `Eeprom25x::read`: one chip-select window sending the 4-byte
read command header then full-duplex transferring the caller's buffer. -/
def eepromRead (address : Nat) (buf : List Nat) : List Ev × POutcome Unit :=
  match e25x_read_from_address_command address with
  | some cmd =>
    ([Ev.pinLow Pin.cs, Ev.spiWrite (toBeBytes4 cmd), Ev.spiTransfer buf,
      Ev.pinHigh Pin.cs], POutcome.ok ())
  | none => ([], POutcome.panicked)

/-- Method `Eeprom25x::write`: one chip-select window sending the 4-byte
write command header then the payload bytes. -/
def eepromWrite (address : Nat) (bytes : List Nat) : List Ev × POutcome Unit :=
  match e25x_write_from_address_command address with
  | some cmd =>
    ([Ev.pinLow Pin.cs, Ev.spiWrite (toBeBytes4 cmd), Ev.spiWrite bytes,
      Ev.pinHigh Pin.cs], POutcome.ok ())
  | none => ([], POutcome.panicked)

/-- Events of one busy-wait: the device answers busy `env.busyPolls` times
and then clear, so `env.busyPolls + 1` status-read transactions occur. -/
def busyWaitEvs (env : Env) : List Ev :=
  (List.replicate (env.busyPolls + 1) statusReadTxEvs).flatten

/-- The chunk computation of the write loop: `this_page_offset = offset %
page_size`, `this_page_remaining = page_size - this_page_offset`,
`chunk_size = min(bytes.len(), this_page_remaining)`. -/
def chunkSize (pageSize offset len : Nat) : Nat :=
  min len (pageSize - offset % pageSize)

/-- The sequence of page-write bursts `Storage::write` issues: pairs of
start address and payload chunk, following the source loop.  The fuel
argument (instantiated with the buffer length, which strictly decreases
while the page size is positive) makes the recursion structural. -/
def burstsGo (ps : Nat) : Nat → Nat → List Nat → List (Nat × List Nat)
  | 0, _, _ => []
  | _, _, [] => []
  | fuel + 1, offset, b :: bs =>
    (offset, (b :: bs).take (chunkSize ps offset (b :: bs).length)) ::
      burstsGo ps fuel (offset + chunkSize ps offset (b :: bs).length)
        ((b :: bs).drop (chunkSize ps offset (b :: bs).length))

/-- The page-write bursts for a buffer written at `offset`. -/
def bursts (ps offset : Nat) (bytes : List Nat) : List (Nat × List Nat) :=
  burstsGo ps bytes.length offset bytes

/-- Events of one iteration of the write loop: WriteEnable, the page-write
burst, the busy-wait, WriteDisable. -/
def burstEvs (env : Env) (address : Nat) (chunk : List Nat) : List Ev :=
  writeEnableEvs ++ (eepromWrite address chunk).1 ++ busyWaitEvs env ++ writeDisableEvs

/-- The `while !bytes.is_empty()` loop of `Storage::write`, emitting per
chunk: WriteEnable, the burst, the busy-wait, WriteDisable. -/
def writeLoopGo (ps : Nat) (env : Env) : Nat → Nat → List Nat → List Ev × POutcome Unit
  | 0, _, _ => ([], POutcome.ok ())
  | _, _, [] => ([], POutcome.ok ())
  | fuel + 1, offset, b :: bs =>
    match eepromWrite offset ((b :: bs).take (chunkSize ps offset (b :: bs).length)) with
    | (evs, POutcome.ok _) =>
      ((writeEnableEvs ++ evs ++ busyWaitEvs env ++ writeDisableEvs)
          ++ (writeLoopGo ps env fuel (offset + chunkSize ps offset (b :: bs).length)
              ((b :: bs).drop (chunkSize ps offset (b :: bs).length))).1,
       (writeLoopGo ps env fuel (offset + chunkSize ps offset (b :: bs).length)
           ((b :: bs).drop (chunkSize ps offset (b :: bs).length))).2)
    | (evs, r) => (writeEnableEvs ++ evs, r)

/-- Trait method `ReadStorage::read` for `Storage`: assert hold, wake the
sleep-capable variants, perform one address-qualified read of the whole
buffer, re-enter deep sleep when applicable, release hold.  The source
performs no capacity check here. -/
def storageRead (cfg : StorageCfg) (env : Env) (offset : Nat) (buf : List Nat) :
    List Ev × POutcome Unit :=
  match eepromRead offset buf with
  | (evs, POutcome.ok _) =>
    (holdTransferEvs true
       ++ (if cfg.dev.sleep then releaseFromDeepSleepEvs cfg.dev else [])
       ++ evs
       ++ (if cfg.dev.sleep then deepSleepEvs else [])
       ++ holdTransferEvs false,
     POutcome.ok ())
  | (evs, r) =>
    (holdTransferEvs true
       ++ (if cfg.dev.sleep then releaseFromDeepSleepEvs cfg.dev else [])
       ++ evs, r)

/-- Trait method `Storage::write` for `Storage`: reject the request with
`TooMuchData` when `offset + bytes.len() > capacity` before any signal or
bus activity; otherwise assert hold, wake the sleep-capable variants, run
the page-chunked write loop, re-enter deep sleep when applicable, release
hold. -/
def storageWrite (cfg : StorageCfg) (env : Env) (offset : Nat) (bytes : List Nat) :
    List Ev × POutcome Unit :=
  if offset + bytes.length > cfg.capacity then
    ([], POutcome.err DriverError.tooMuchData)
  else
    match writeLoopGo cfg.pageSize env bytes.length offset bytes with
    | (evs, POutcome.ok _) =>
      (holdTransferEvs true
         ++ (if cfg.dev.sleep then releaseFromDeepSleepEvs cfg.dev else [])
         ++ evs
         ++ (if cfg.dev.sleep then deepSleepEvs else [])
         ++ holdTransferEvs false,
       POutcome.ok ())
    | (evs, r) =>
      (holdTransferEvs true
         ++ (if cfg.dev.sleep then releaseFromDeepSleepEvs cfg.dev else [])
         ++ evs, r)

end E25x

namespace E25x

/-! ## Facts about the storage layer -/

/-- The read command encoder never panics: opcode `0x03` fits the 7-bit
range `24..31`. -/
theorem e25x_read_from_address_command_eq (a : Nat) :
    e25x_read_from_address_command a
      = some (a % 2 ^ 24 + opRead * 2 ^ 24 + a / 2 ^ 31 * 2 ^ 31) := by
  norm_num [e25x_read_from_address_command, setBits, opRead]

/-- The write command encoder never panics: opcode `0x02` fits the 7-bit
range `24..31`. -/
theorem e25x_write_from_address_command_eq (a : Nat) :
    e25x_write_from_address_command a
      = some (a % 2 ^ 24 + opWrite * 2 ^ 24 + a / 2 ^ 31 * 2 ^ 31) := by
  norm_num [e25x_write_from_address_command, setBits, opWrite]

/-- Normal form of `Eeprom25x::read`. -/
theorem eepromRead_eq (address : Nat) (buf : List Nat) :
    eepromRead address buf
      = ([Ev.pinLow Pin.cs,
          Ev.spiWrite (toBeBytes4
            (address % 2 ^ 24 + opRead * 2 ^ 24 + address / 2 ^ 31 * 2 ^ 31)),
          Ev.spiTransfer buf, Ev.pinHigh Pin.cs], POutcome.ok ()) := by
  rw [eepromRead, e25x_read_from_address_command_eq]

/-- Normal form of `Eeprom25x::write`. -/
theorem eepromWrite_eq (address : Nat) (bytes : List Nat) :
    eepromWrite address bytes
      = ([Ev.pinLow Pin.cs,
          Ev.spiWrite (toBeBytes4
            (address % 2 ^ 24 + opWrite * 2 ^ 24 + address / 2 ^ 31 * 2 ^ 31)),
          Ev.spiWrite bytes, Ev.pinHigh Pin.cs], POutcome.ok ()) := by
  rw [eepromWrite, e25x_write_from_address_command_eq]

/-- A chunk is nonempty while the buffer is and the page size is
positive. -/
theorem chunkSize_pos (ps offset len : Nat) (hps : 0 < ps) (hlen : 0 < len) :
    0 < chunkSize ps offset len := by
  have hmod := Nat.mod_lt offset hps
  simp only [chunkSize, Nat.lt_min]
  omega

/-- The burst payloads concatenate back to the written buffer. -/
theorem burstsGo_flatten (ps : Nat) (hps : 0 < ps) :
    ∀ (fuel offset : Nat) (bytes : List Nat), bytes.length ≤ fuel →
      ((burstsGo ps fuel offset bytes).map Prod.snd).flatten = bytes := by
  intro fuel
  induction fuel with
  | zero =>
    intro offset bytes h
    cases bytes with
    | nil => simp [burstsGo]
    | cons b bs => simp at h
  | succ n ih =>
    intro offset bytes h
    cases bytes with
    | nil => simp [burstsGo]
    | cons b bs =>
      have hc : 0 < chunkSize ps offset (b :: bs).length :=
        chunkSize_pos ps offset _ hps (by simp)
      have hdrop : ((b :: bs).drop (chunkSize ps offset (b :: bs).length)).length ≤ n := by
        simp only [List.length_drop, List.length_cons] at *
        omega
      simp only [burstsGo, List.map_cons, List.flatten_cons]
      rw [ih _ _ hdrop, List.take_append_drop]

/-- Every burst is nonempty and stays inside one page: the start address
modulo the page size plus the burst length never exceeds the page size. -/
theorem burstsGo_mem (ps : Nat) (hps : 0 < ps) :
    ∀ (fuel offset : Nat) (bytes : List Nat), bytes.length ≤ fuel →
      ∀ p ∈ burstsGo ps fuel offset bytes,
        p.2 ≠ [] ∧ p.1 % ps + p.2.length ≤ ps := by
  intro fuel
  induction fuel with
  | zero =>
    intro offset bytes h p hp
    cases bytes with
    | nil => simp [burstsGo] at hp
    | cons b bs => simp at h
  | succ n ih =>
    intro offset bytes h p hp
    cases bytes with
    | nil => simp [burstsGo] at hp
    | cons b bs =>
      have hc : 0 < chunkSize ps offset (b :: bs).length :=
        chunkSize_pos ps offset _ hps (by simp)
      have hmod := Nat.mod_lt offset hps
      simp only [burstsGo, List.mem_cons] at hp
      rcases hp with rfl | hp
      · have hd : (b :: bs).length = bs.length + 1 := by simp
        have hmin : chunkSize ps offset (b :: bs).length ≤ ps - offset % ps :=
          min_le_right _ _
        refine ⟨?_, ?_⟩
        · intro heq
          have hlen := congrArg List.length heq
          rw [List.length_take] at hlen
          simp only [List.length_nil] at hlen
          omega
        · dsimp only
          rw [List.length_take]
          omega
      · have hdrop : ((b :: bs).drop (chunkSize ps offset (b :: bs).length)).length ≤ n := by
          simp only [List.length_drop, List.length_cons] at *
          omega
        exact ih _ _ hdrop p hp

/-- The write loop's event trace is exactly one `burstEvs` block per
burst, and the loop always succeeds. -/
theorem writeLoopGo_eq_bursts (ps : Nat) (env : Env) :
    ∀ (fuel offset : Nat) (bytes : List Nat),
      writeLoopGo ps env fuel offset bytes
        = ((burstsGo ps fuel offset bytes).flatMap (fun p => burstEvs env p.1 p.2),
           POutcome.ok ()) := by
  intro fuel
  induction fuel with
  | zero =>
    intro offset bytes
    cases bytes with
    | nil => simp [writeLoopGo, burstsGo]
    | cons b bs => simp [writeLoopGo, burstsGo]
  | succ n ih =>
    intro offset bytes
    cases bytes with
    | nil => simp [writeLoopGo, burstsGo]
    | cons b bs =>
      simp only [writeLoopGo, eepromWrite_eq, burstsGo, List.flatMap_cons, ih,
        burstEvs, List.append_assoc]

end E25x

namespace E25x

/-! ## Claims about the storage layer -/

/-- C1 (counterexample): on the 8 KiB variant, reading 1 byte at offset
8192 exceeds the capacity, yet `ReadStorage::read` does not return the
out-of-range error (`TooMuchData`): the source contains no capacity check
in `read`. -/
theorem storage_read_out_of_range_counterexample :
    8192 + ([(0 : Nat)]).length > 8192 ∧
    (storageRead ⟨8192, 16, ⟨false, false⟩⟩ ⟨0, 0x29, 0⟩ 8192 [0]).2
      ≠ POutcome.err DriverError.tooMuchData := by
  decide

/-- C1 (amended): `ReadStorage::read` performs no capacity check: even
when `offset + len(buffer) > capacity` it asserts hold and issues the
read transaction (the trace is nonempty) and, transports succeeding,
returns success rather than `OutOfRange`. -/
theorem storage_read_performs_no_capacity_check
    (cfg : StorageCfg) (env : Env) (offset : Nat) (buf : List Nat)
    (h : offset + buf.length > cfg.capacity) :
    (storageRead cfg env offset buf).2 = POutcome.ok () ∧
    (storageRead cfg env offset buf).1 ≠ [] := by
  rw [storageRead, eepromRead_eq]
  exact ⟨rfl, by simp [holdTransferEvs]⟩

/-- Witness for the amended C1 on the 8 KiB variant at offset 8192. -/
theorem storage_read_performs_no_capacity_check_witness :
    8192 + ([(0 : Nat)]).length > (8192 : Nat) ∧
    (storageRead ⟨8192, 16, ⟨false, false⟩⟩ ⟨0, 0x29, 0⟩ 8192 [0]).2 = POutcome.ok () ∧
    (storageRead ⟨8192, 16, ⟨false, false⟩⟩ ⟨0, 0x29, 0⟩ 8192 [0]).1 ≠ [] :=
  ⟨by decide,
   storage_read_performs_no_capacity_check ⟨8192, 16, ⟨false, false⟩⟩ ⟨0, 0x29, 0⟩
     8192 [0] (by decide)⟩

/-- C4: the storage write splits the buffer into successive page bursts of
size `min(remaining, pageSize - offset % pageSize)`: the burst payloads
concatenate back to the buffer (so the sizes sum to its length), no burst
crosses a page boundary, the write loop issues exactly one
WriteEnable/burst/busy-wait/WriteDisable block per chunk, `storageWrite`
within capacity emits exactly those bursts, and the example pageSize=16,
offset=10, L=20 yields bursts of sizes 6 and 14 at addresses 10 and 16. -/
theorem storage_write_page_chunking (ps offset cap : Nat) (bytes : List Nat)
    (env : Env) (dev : DeviceCfg) (hps : 0 < ps) :
    ((bursts ps offset bytes).map Prod.snd).flatten = bytes ∧
    (((bursts ps offset bytes).map Prod.snd).map List.length).sum = bytes.length ∧
    (∀ p ∈ bursts ps offset bytes, p.2 ≠ [] ∧ p.1 % ps + p.2.length ≤ ps) ∧
    writeLoopGo ps env bytes.length offset bytes
      = ((bursts ps offset bytes).flatMap (fun p => burstEvs env p.1 p.2),
         POutcome.ok ()) ∧
    (offset + bytes.length ≤ cap →
      storageWrite ⟨cap, ps, dev⟩ env offset bytes
        = (holdTransferEvs true
            ++ (if dev.sleep then releaseFromDeepSleepEvs dev else [])
            ++ (bursts ps offset bytes).flatMap (fun p => burstEvs env p.1 p.2)
            ++ (if dev.sleep then deepSleepEvs else [])
            ++ holdTransferEvs false,
           POutcome.ok ())) ∧
    (bursts 16 10 (List.replicate 20 0)).map (fun p => (p.1, p.2.length))
      = [(10, 6), (16, 14)] := by
  have h1 := burstsGo_flatten ps hps bytes.length offset bytes le_rfl
  have h3 := burstsGo_mem ps hps bytes.length offset bytes le_rfl
  have h4 := writeLoopGo_eq_bursts ps env bytes.length offset bytes
  refine ⟨h1, ?_, h3, h4, ?_, by decide⟩
  · have h2 := congrArg List.length h1
    simpa using h2
  · intro hle
    have hnot : ¬ offset + bytes.length > (StorageCfg.mk cap ps dev).capacity := by
      simpa using hle
    rw [storageWrite, if_neg hnot]
    have h4c : writeLoopGo (StorageCfg.mk cap ps dev).pageSize env bytes.length offset bytes
        = ((bursts ps offset bytes).flatMap (fun p => burstEvs env p.1 p.2),
           POutcome.ok ()) := h4
    rw [h4c]

/-- Witness for C4: pageSize 16, offset 10, a 20-byte buffer, the 8 KiB
variant. -/
theorem storage_write_page_chunking_witness :
    (0 : Nat) < 16 ∧
    (((bursts 16 10 (List.replicate 20 0)).map Prod.snd).flatten = List.replicate 20 0 ∧
     (((bursts 16 10 (List.replicate 20 0)).map Prod.snd).map List.length).sum
       = (List.replicate 20 (0 : Nat)).length ∧
     (∀ p ∈ bursts 16 10 (List.replicate 20 0), p.2 ≠ [] ∧ p.1 % 16 + p.2.length ≤ 16) ∧
     writeLoopGo 16 ⟨0, 0x29, 0⟩ (List.replicate 20 (0 : Nat)).length 10 (List.replicate 20 0)
       = ((bursts 16 10 (List.replicate 20 0)).flatMap
           (fun p => burstEvs ⟨0, 0x29, 0⟩ p.1 p.2), POutcome.ok ()) ∧
     (10 + (List.replicate 20 (0 : Nat)).length ≤ 8192 →
       storageWrite ⟨8192, 16, ⟨false, false⟩⟩ ⟨0, 0x29, 0⟩ 10 (List.replicate 20 0)
         = (holdTransferEvs true
             ++ (if DeviceCfg.sleep ⟨false, false⟩ then releaseFromDeepSleepEvs ⟨false, false⟩ else [])
             ++ (bursts 16 10 (List.replicate 20 0)).flatMap
                 (fun p => burstEvs ⟨0, 0x29, 0⟩ p.1 p.2)
             ++ (if DeviceCfg.sleep ⟨false, false⟩ then deepSleepEvs else [])
             ++ holdTransferEvs false,
            POutcome.ok ())) ∧
     (bursts 16 10 (List.replicate 20 0)).map (fun p => (p.1, p.2.length))
       = [(10, 6), (16, 14)]) :=
  ⟨by decide,
   storage_write_page_chunking 16 10 8192 (List.replicate 20 0) ⟨0, 0x29, 0⟩
     ⟨false, false⟩ (by decide)⟩

/-- C5: a storage write whose range exceeds the capacity returns
`TooMuchData` with an empty event trace: the bound is checked once, up
front, before any signal or transport call. -/
theorem storage_write_out_of_range_before_any_transaction
    (cfg : StorageCfg) (env : Env) (offset : Nat) (bytes : List Nat)
    (h : offset + bytes.length > cfg.capacity) :
    storageWrite cfg env offset bytes = ([], POutcome.err DriverError.tooMuchData) := by
  rw [storageWrite, if_pos h]

/-- Witness for C5 on the 8 KiB variant at offset 8192. -/
theorem storage_write_out_of_range_before_any_transaction_witness :
    8192 + ([(0 : Nat)]).length > (8192 : Nat) ∧
    storageWrite ⟨8192, 16, ⟨false, false⟩⟩ ⟨0, 0x29, 0⟩ 8192 [0]
      = ([], POutcome.err DriverError.tooMuchData) :=
  ⟨by decide,
   storage_write_out_of_range_before_any_transaction ⟨8192, 16, ⟨false, false⟩⟩
     ⟨0, 0x29, 0⟩ 8192 [0] (by decide)⟩

end E25x
